import Mathlib

/-!
Verification development for the `unifi_client` repository.

The definitions below are a shallow embedding of the Python source in
`unifi_client.py`.  Pure post-processing steps (DPI annotation, composite key
computation, pre-flight validation, the resolver's regex/extraction pipeline)
are translated into executable Lean functions; the external collaborators
(HTTP via `requests`, `jsbeautifier`, `yaml`, `hashlib`) are supplied as
oracle fields of explicit environment structures, exactly at the call
boundaries where the Python code invokes them.
-/

namespace UnifiSpec

/-- Map values parsed out of the controller's `dynamic.dpi.js`: the code only
ever reads the `"name"` entry of each record
(`...get(k, \x7b"name": "__unlisted__"\x7d)["name"]`). -/
structure NameRec where
  name : String
deriving DecidableEq

/-- A category / application map: Python dict from integer id to a record.
Modelled as an association list with first-match lookup. -/
abbrev IdNameMap := List (Nat × NameRec)

/-- Python `d.get(k, default)` on the association-list model of a dict. -/
def dictGet (m : IdNameMap) (k : Nat) (default : NameRec) : NameRec :=
  match m.find? (fun p => p.1 == k) with
  | some p => p.2
  | none => default

/-- A raw DPI traffic stat record: numeric `cat` and `app` ids, plus the three
optional annotation fields the client may attach (`none` models the dict key
being absent). -/
structure StatRecord where
  cat : Nat
  app : Nat
  x_cat : Option String := none
  x_app : Option String := none
  x_cat_app_id : Option String := none
deriving DecidableEq

/-- Composite application key, from `unifi_client.py` lines 357 and 422:
`app_cat_id = (stat["cat"] << 16) + stat["app"]`. -/
def app_cat_id (cat app : Nat) : Nat := (cat <<< 16) + app

/-- The DPI annotation step applied per stat record in `get_site_dpi_by_app`
(lines 355-362) and `get_dpi_by_app` (lines 419-426): look up the category
name by `cat`, the application name by the composite key, defaulting to the
`"__unlisted__"` sentinel record, and attach the fingerprint string
`category_map_hash ++ ":" ++ application_map_hash`. -/
def annotate_stat (category_map application_map : IdNameMap)
    (category_map_hash application_map_hash : String)
    (stat : StatRecord) : StatRecord :=
  { stat with
    x_cat := some (dictGet category_map stat.cat ⟨"__unlisted__"⟩).name
    x_app := some (dictGet application_map (app_cat_id stat.cat stat.app) ⟨"__unlisted__"⟩).name
    x_cat_app_id := some (category_map_hash ++ ":" ++ application_map_hash) }

/-- One element of the `"data"` list of a `/stat/sitedpi` by-app response;
the code reads `data[0].get("by_app", [])` (an absent key behaves as the
empty list). -/
structure SiteDpiEntry where
  by_app : List StatRecord
deriving DecidableEq

/-- Parsed body of a `/stat/sitedpi` by-app response. -/
structure SiteDpiByAppResponse where
  data : List SiteDpiEntry
deriving DecidableEq

/-- Post-processing of `get_site_dpi_by_app` (lines 351-362): when the data
list is non-empty and both maps are present, every record of
`data[0]["by_app"]` is annotated in place; otherwise the parsed response is
returned unchanged.  The match discriminants mirror the source condition
`len(data) > 0 and application_map is not None and category_map is not None`. -/
def get_site_dpi_by_app_annotate
    (category_map application_map : Option IdNameMap)
    (category_map_hash application_map_hash : String)
    (resp : SiteDpiByAppResponse) : SiteDpiByAppResponse :=
  match resp.data, application_map, category_map with
  | entry0 :: rest, some amap, some cmap =>
      { data :=
          { entry0 with
            by_app := entry0.by_app.map
              (annotate_stat cmap amap category_map_hash application_map_hash) } :: rest }
  | _, _, _ => resp

/-- One element of the `"data"` list of a `/stat/stadpi` by-app response:
a per-device entry whose `"by_app"` list is annotated. -/
structure StaDpiEntry where
  by_app : List StatRecord
deriving DecidableEq

/-- Parsed body of a `/stat/stadpi` by-app response. -/
structure StaDpiByAppResponse where
  data : List StaDpiEntry
deriving DecidableEq

/-- Post-processing of `get_dpi_by_app` (lines 416-426): when both maps are
present, every record of every device entry's `"by_app"` list is annotated in
place; otherwise the parsed response is returned unchanged. -/
def get_dpi_by_app_annotate
    (category_map application_map : Option IdNameMap)
    (category_map_hash application_map_hash : String)
    (resp : StaDpiByAppResponse) : StaDpiByAppResponse :=
  match application_map, category_map with
  | some amap, some cmap =>
      { data := resp.data.map (fun device =>
          { device with
            by_app := device.by_app.map
              (annotate_stat cmap amap category_map_hash application_map_hash) }) }
  | _, _ => resp

/-- A raw record of a by-category DPI response: it carries a numeric `cat`
id; the optional fields model annotation keys, which the source never
attaches to these records. -/
structure CatStatRecord where
  cat : Nat
  x_cat : Option String := none
  x_app : Option String := none
  x_cat_app_id : Option String := none
deriving DecidableEq

/-- One element of the `"data"` list of a by-category DPI response. -/
structure DpiByCatEntry where
  by_cat : List CatStatRecord
deriving DecidableEq

/-- Parsed body of a by-category DPI response (site-aggregate or
per-device; both have a `"data"` list of entries carrying `"by_cat"`). -/
structure DpiByCatResponse where
  data : List DpiByCatEntry
deriving DecidableEq

/-- Post-processing of `get_site_dpi_by_category` (lines 368-389): between
parsing the body and returning it the source only runs schema validation;
no annotation loop exists, so the parsed response is returned unchanged. -/
def get_site_dpi_by_category_result (resp : DpiByCatResponse) : DpiByCatResponse :=
  resp

/-- Post-processing of `get_dpi_by_category` (lines 433-455): identical to
the site-aggregate variant, the parsed response is returned unchanged with
no annotation loop. -/
def get_dpi_by_category_result (resp : DpiByCatResponse) : DpiByCatResponse :=
  resp

/-- The exception kinds the modelled code paths can raise.  Messages are
elided; the claims only distinguish kinds.  `unifiAPIClientException` is the
error class raised throughout `unifi_client.py`; `valueError` is Python's
built-in `ValueError`; `attributeError` arises from calling `.groups()` on a
`None` match object; `yamlError` is a `yaml` library parse error;
`schemaValidationError` is a `jsonschema` validation error. -/
inductive PyError where
  | unifiAPIClientException
  | valueError
  | attributeError
  | yamlError
  | schemaValidationError
deriving DecidableEq

/-- An HTTP response as the code consumes it: status code and body text. -/
structure HttpResponse where
  status_code : Nat
  text : String
deriving DecidableEq

/-- Stat attribute allow-list, from `UnifiAPIClient.all_stat_attributes`. -/
def all_stat_attributes : List String :=
  ["bytes", "wan-tx_bytes", "wan-rx_bytes", "wlan_bytes", "num_sta",
   "lan-num_sta", "wlan-num_sta", "time", "rx_bytes", "tx_bytes"]

/-- Supported report intervals, from `get_stats_for_site`. -/
def supported_intervals : List String := ["5minutes", "hourly", "daily"]

/-- Supported report element types, from `get_stats_for_site`. -/
def supported_element_types : List String := ["site", "user", "ap"]

/-- Body of the stats report POST: `attrs` always, `start` / `end` only when
given, `macs` only when given and non-empty (mirroring the dict built in
`get_stats_for_site` lines 182-190). -/
structure StatRequestParameters where
  attrs : List String
  start : Option Int := none
  stop : Option Int := none
  macs : Option (List String) := none
deriving DecidableEq

/-- External collaborators of `get_stats_for_site`: the HTTP POST (keyed by
url and request body) and the `jsonschema.validate` outcome (keyed by the
element type selecting the schema, and the response body). -/
structure StatsEnv where
  post : String → StatRequestParameters → HttpResponse
  validate : String → String → Bool

/-- Shallow embedding of `get_stats_for_site` (lines 158-210).  The second
component of the result is the list of URLs actually POSTed, so that
"fails before any HTTP request is issued" is expressible.  Validation
failures raise `ValueError` before the request is built; a non-200 response
raises `UnifiAPIClientException`; a schema mismatch raises the validator's
error; the final `else` branch of the source (unreachable after validation)
raises `UnifiAPIClientException`. -/
def get_stats_for_site (env : StatsEnv) (base site interval element_type : String)
    (stat_attributes : List String)
    (start_epoch_timestamp_ms end_epoch_timestamp_ms : Option Int)
    (filter_mac_list : Option (List String)) :
    Except PyError String × List String :=
  if interval ∉ supported_intervals then
    (.error .valueError, [])
  else if element_type ∉ supported_element_types then
    (.error .valueError, [])
  else if ¬ (∀ a ∈ stat_attributes, a ∈ all_stat_attributes) then
    (.error .valueError, [])
  else
    let url_stat := base ++ "/api/s/" ++ site ++ "/stat/report/" ++ interval ++ "." ++ element_type
    let params : StatRequestParameters :=
      { attrs := stat_attributes
        start := start_epoch_timestamp_ms
        stop := end_epoch_timestamp_ms
        macs := match filter_mac_list with
                | some l => if l.length > 0 then some l else none
                | none => none }
    let resp := env.post url_stat params
    if resp.status_code ≠ 200 then
      (.error .unifiAPIClientException, [url_stat])
    else if element_type = "ap" then
      (if env.validate "ap" resp.text then (.ok resp.text, [url_stat])
       else (.error .schemaValidationError, [url_stat]))
    else if element_type = "user" then
      (if env.validate "user" resp.text then (.ok resp.text, [url_stat])
       else (.error .schemaValidationError, [url_stat]))
    else if element_type = "site" then
      (if env.validate "site" resp.text then (.ok resp.text, [url_stat])
       else (.error .schemaValidationError, [url_stat]))
    else
      (.error .unifiAPIClientException, [url_stat])

/-- Character class `[a-zA-Z0-9.]` of the build-string regex. -/
def isBuildChar (c : Char) : Bool :=
  c.isAlpha || c.isDigit || c == '.'

/-- One step of `re.findall(r"angular/([a-zA-Z0-9.]*)/js/", text)`: at the
current position, try to match `angular/`, then the longest run of class
characters, then `/js/`.  Because `/` is not a class character, the greedy
capture never needs to backtrack, so the longest run is the only candidate.
On a match the scan resumes after the match (non-overlapping, as in Python);
on a miss it advances one character.  The fuel argument starts at the text
length; every recursive call consumes at least one character, so the fuel
never runs out on the initial call. -/
def findall_angular_go : List Char → Nat → List String
  | _, 0 => []
  | s, fuel + 1 =>
    if List.isPrefixOf ("angular/".data) s then
      let rest := s.drop 8
      let grp := rest.takeWhile isBuildChar
      let after := rest.dropWhile isBuildChar
      if List.isPrefixOf ("/js/".data) after then
        String.mk grp :: findall_angular_go (after.drop 4) fuel
      else
        match s with
        | [] => []
        | _ :: tl => findall_angular_go tl fuel
    else
      match s with
      | [] => []
      | _ :: tl => findall_angular_go tl fuel

/-- `re.findall(r"angular/([a-zA-Z0-9.]*)/js/", text)` from
`get_category_and_application_map` line 605. -/
def findall_angular_build (s : List Char) : List String :=
  findall_angular_go s s.length

/-- Token of the extraction regex: a literal run of characters, or `.*`
(greedy, with `re.DOTALL` in force so it matches newlines too), optionally
capturing. -/
inductive ReTok where
  | lit (s : List Char)
  | star (capture : Bool)

/-- Greedy search for a `.*` token: try consuming `k` characters (longest
first, as a greedy quantifier does) and run the continuation `f` on the
remainder; on failure backtrack to shorter prefixes.  Returns the consumed
prefix and the continuation's captures. -/
def starSearch (f : List Char → Option (List (List Char))) (s : List Char) :
    Nat → Option (List Char × List (List Char))
  | 0 =>
    match f s with
    | some caps => some ([], caps)
    | none => none
  | k + 1 =>
    match f (s.drop (k + 1)) with
    | some caps => some (s.take (k + 1), caps)
    | none => starSearch f s k

/-- Backtracking matcher for a token list against a prefix of the input
(the semantics of Python's `re.match`: anchored at the start, the rest of
the input unconstrained).  Returns the list of captured groups in order, or
`none` when the pattern does not match. -/
def reMatchToks : List ReTok → List Char → Option (List (List Char))
  | [], _ => some []
  | .lit l :: rest, s =>
    if List.isPrefixOf l s then reMatchToks rest (s.drop l.length) else none
  | .star cap :: rest, s =>
    match starSearch (reMatchToks rest) s s.length with
    | some (taken, caps) => some (if cap then taken :: caps else caps)
    | none => none

/-- The extraction pattern of `get_category_and_application_map` line 639,
tokenized:
`.*categories: (.*),.* <12 spaces> applications:(.*) <closing tail>`
where the closing tail is a brace, a newline, four spaces, a brace-comma
sequence with an empty object literal, a bracket-comma, a newline, four
spaces and `2:`.  Matching runs in dot-matches-newlines mode, which the
`.*` token already implements. -/
def dpi_map_pattern : List ReTok :=
  [.star false,
   .lit ("categories: ".data),
   .star true,
   .lit (",".data),
   .star false,
   .lit ("            applications:".data),
   .star true,
   .lit ("\x7d\n    \x7d, \x7b\x7d],\n    2:".data)]

/-- External collaborators of `get_category_and_application_map`: the login
page GET, the per-build-string `dynamic.dpi.js` GET, `jsbeautifier.beautify`
and `yaml.load` (the latter returning `none` on a parse failure, which the
Python library surfaces as a raised `yaml` error). -/
structure ResolverEnv where
  login_page_response : HttpResponse
  dpi_js_response : String → HttpResponse
  beautify : String → String
  yaml_load : String → Option IdNameMap

/-- The candidate loop of `get_category_and_application_map` lines 616-632:
try each build string's `dynamic.dpi.js` URL; the first 200 response wins
and is beautified; non-200 responses are skipped.  Python iterates over
`set(build_strings)` in unspecified order; the model iterates in list
order, one of the acceptable orders (the spec notes any order is
acceptable since the loop short-circuits on first success). -/
def find_dpi_js (env : ResolverEnv) : List String → Option String
  | [] => none
  | b :: rest =>
    if (env.dpi_js_response b).status_code = 200 then
      some (env.beautify (env.dpi_js_response b).text)
    else
      find_dpi_js env rest

/-- Build-string discovery, lines 598-610: fetch the login page, fail with
`UnifiAPIClientException` on a non-200 status or when the findall scan
produces no build strings. -/
def discover_build_strings (env : ResolverEnv) : Except PyError (List String) :=
  if env.login_page_response.status_code ≠ 200 then
    .error .unifiAPIClientException
  else
    let bs := findall_angular_build env.login_page_response.text.data
    if bs.length < 1 then .error .unifiAPIClientException else .ok bs

/-- Shallow embedding of `get_category_and_application_map` (lines
595-650).  Notable faithfulness points: the source calls
`re.match(...).groups()` without checking the match for `None`, so a
non-matching script raises `AttributeError`, not
`UnifiAPIClientException`; the `len(mg) != 2` guard is kept although a
successful match always yields exactly two groups; a `yaml.load` failure
raises the yaml library's own error. -/
def get_category_and_application_map (env : ResolverEnv)
    (angular_build_str_list : Option (List String)) :
    Except PyError (IdNameMap × IdNameMap) := do
  let build_stings_in_text ←
    match angular_build_str_list with
    | none => discover_build_strings env
    | some l => if l.length < 1 then discover_build_strings env else pure l
  match find_dpi_js env build_stings_in_text with
  | none => throw .unifiAPIClientException
  | some beautified_dpi_js =>
    match reMatchToks dpi_map_pattern beautified_dpi_js.data with
    | none => throw .attributeError
    | some mg =>
      if mg.length ≠ 2 then throw .unifiAPIClientException
      else
        match env.yaml_load (String.mk (mg.headD [])) with
        | none => throw .yamlError
        | some network_traffic_category_map =>
          match env.yaml_load (String.mk (mg.getD 1 [])) with
          | none => throw .yamlError
          | some network_traffic_application_map =>
            pure (network_traffic_category_map, network_traffic_application_map)

/-- The four map-related attributes of a `UnifiAPIClient`, all `None` at
class level (lines 24-27). -/
structure ClientMapState where
  network_traffic_category_map : Option IdNameMap
  network_traffic_application_map : Option IdNameMap
  network_traffic_category_map_hash : Option String
  network_traffic_application_map_hash : Option String
deriving DecidableEq

/-- The best-effort map-resolution step of `UnifiAPIClient.__init__` (lines
74-84), run after a successful login: call the resolver, store the maps and
their content hashes (`sha256_json` models
`sha256(json.dumps(m)).hexdigest()`); an `UnifiAPIClientException` is caught
and swallowed, leaving all four attributes `None`; any other exception
propagates and construction fails. -/
def init_category_and_app_maps (env : ResolverEnv)
    (sha256_json : IdNameMap → String)
    (try_to_get_category_and_app_map : Bool) : Except PyError ClientMapState :=
  if try_to_get_category_and_app_map then
    match get_category_and_application_map env none with
    | .ok (cm, am) =>
      .ok ⟨some cm, some am, some (sha256_json cm), some (sha256_json am)⟩
    | .error .unifiAPIClientException => .ok ⟨none, none, none, none⟩
    | .error e => .error e
  else
    .ok ⟨none, none, none, none⟩

/-- Claim C1: for every stat record with non-negative integer fields `cat`
and `app` where `app < 65536`, the composite key `(cat << 16) + app` used by
`get_site_dpi_by_app` and `get_dpi_by_app` equals the bitwise-or packing
`(cat << 16) | app`. -/
theorem c1_composite_key_is_or (cat app : Nat) (h : app < 65536) :
    app_cat_id cat app = (cat <<< 16) ||| app := by
  have h2 : app < 2 ^ 16 := h
  rw [app_cat_id, Nat.shiftLeft_eq, Nat.mul_comm cat (2 ^ 16)]
  exact Nat.mul_add_lt_is_or h2 cat

/-- Witness for C1 at cat = 3, app = 5. -/
theorem c1_composite_key_is_or_witness :
    5 < 65536 ∧ app_cat_id 3 5 = (3 <<< 16) ||| 5 :=
  ⟨by decide, c1_composite_key_is_or 3 5 (by decide)⟩

/-- Claim C2: when both maps are present, an annotated record keeps its
`cat` and `app` fields and carries `x_cat` equal to the category map's name
for key `cat`, `x_app` equal to the application map's name for the composite
key, and `x_cat_app_id` equal to the two map hashes joined by a colon. -/
theorem c2_annotation_resolves_names (cm am : IdNameMap) (h1 h2 : String)
    (stat : StatRecord) (ncat napp : String)
    (hcat : cm.find? (fun p => p.1 == stat.cat) = some (stat.cat, ⟨ncat⟩))
    (happ : am.find? (fun p => p.1 == app_cat_id stat.cat stat.app) =
      some (app_cat_id stat.cat stat.app, ⟨napp⟩)) :
    annotate_stat cm am h1 h2 stat =
      { stat with
        x_cat := some ncat
        x_app := some napp
        x_cat_app_id := some (h1 ++ ":" ++ h2) } := by
  simp [annotate_stat, dictGet, hcat, happ]

/-- Witness for C2: the concrete example of the claim, with category map
mapping 1 to "Web", application map mapping (1 << 16) + 5 to "HTTPS", and
the raw record with cat 1 and app 5. -/
theorem c2_annotation_resolves_names_witness :
    annotate_stat [(1, ⟨"Web"⟩)] [((1 <<< 16) + 5, ⟨"HTTPS"⟩)] "hash1" "hash2"
        ⟨1, 5, none, none, none⟩ =
      ⟨1, 5, some "Web", some "HTTPS", some "hash1:hash2"⟩ :=
  c2_annotation_resolves_names [(1, ⟨"Web"⟩)] [((1 <<< 16) + 5, ⟨"HTTPS"⟩)]
    "hash1" "hash2" ⟨1, 5, none, none, none⟩ "Web" "HTTPS" (by decide) (by decide)

/-- Claim C8: while both maps are present, a record whose `cat` is not a key
of the category map resolves `x_cat` to the sentinel `"__unlisted__"`, and a
record whose composite key is not a key of the application map resolves
`x_app` to the sentinel; annotation never fails on an unresolved id (the
model function is total). -/
theorem c8_unlisted_sentinel (cm am : IdNameMap) (h1 h2 : String)
    (stat : StatRecord) :
    (cm.find? (fun p => p.1 == stat.cat) = none →
      (annotate_stat cm am h1 h2 stat).x_cat = some "__unlisted__") ∧
    (am.find? (fun p => p.1 == app_cat_id stat.cat stat.app) = none →
      (annotate_stat cm am h1 h2 stat).x_app = some "__unlisted__") := by
  constructor <;> intro h <;> simp [annotate_stat, dictGet, h]

/-- Witness for C8 with empty maps and the record with cat 7, app 9. -/
theorem c8_unlisted_sentinel_witness :
    (annotate_stat [] [] "a" "b" ⟨7, 9, none, none, none⟩).x_cat = some "__unlisted__" ∧
    (annotate_stat [] [] "a" "b" ⟨7, 9, none, none, none⟩).x_app = some "__unlisted__" :=
  ⟨(c8_unlisted_sentinel [] [] "a" "b" ⟨7, 9, none, none, none⟩).1 rfl,
   (c8_unlisted_sentinel [] [] "a" "b" ⟨7, 9, none, none, none⟩).2 rfl⟩

/-- Claim C9: annotation is idempotent; running the annotation step a second
time on an already-annotated record with the same maps yields exactly the
same record (the name fields are overwritten, not appended). -/
theorem c9_annotation_idempotent (cm am : IdNameMap) (h1 h2 : String)
    (stat : StatRecord) :
    annotate_stat cm am h1 h2 (annotate_stat cm am h1 h2 stat) =
      annotate_stat cm am h1 h2 stat := rfl

/-- Claim C7: when the category map or the application map is absent, every
DPI endpoint skips annotation entirely and returns the parsed response
unchanged, so records keep raw `cat` / `app` ids and gain no name fields;
the step never raises (the model functions are total). -/
theorem c7_maps_absent_skips_annotation (cm am : Option IdNameMap)
    (h1 h2 : String) (r1 : SiteDpiByAppResponse) (r2 : StaDpiByAppResponse)
    (r3 r4 : DpiByCatResponse) (habs : cm = none ∨ am = none) :
    get_site_dpi_by_app_annotate cm am h1 h2 r1 = r1 ∧
    get_dpi_by_app_annotate cm am h1 h2 r2 = r2 ∧
    get_site_dpi_by_category_result r3 = r3 ∧
    get_dpi_by_category_result r4 = r4 := by
  refine ⟨?_, ?_, rfl, rfl⟩
  · rcases habs with h | h <;> subst h
    · rcases r1 with ⟨_ | ⟨e, rest⟩⟩ <;> cases am <;> rfl
    · rcases r1 with ⟨_ | ⟨e, rest⟩⟩ <;> cases cm <;> rfl
  · rcases habs with h | h <;> subst h
    · cases am <;> rfl
    · cases cm <;> rfl

/-- Witness for C7 with the category map absent, the application map present
and non-trivial responses. -/
theorem c7_maps_absent_skips_annotation_witness :
    get_site_dpi_by_app_annotate none (some [(1, ⟨"Web"⟩)]) "a" "b"
        ⟨[⟨[⟨1, 2, none, none, none⟩]⟩]⟩ = ⟨[⟨[⟨1, 2, none, none, none⟩]⟩]⟩ ∧
    get_dpi_by_app_annotate none (some [(1, ⟨"Web"⟩)]) "a" "b"
        ⟨[⟨[⟨3, 4, none, none, none⟩]⟩]⟩ = ⟨[⟨[⟨3, 4, none, none, none⟩]⟩]⟩ ∧
    get_site_dpi_by_category_result ⟨[⟨[⟨1, none, none, none⟩]⟩]⟩ =
        ⟨[⟨[⟨1, none, none, none⟩]⟩]⟩ ∧
    get_dpi_by_category_result ⟨[⟨[⟨2, none, none, none⟩]⟩]⟩ =
        ⟨[⟨[⟨2, none, none, none⟩]⟩]⟩ :=
  c7_maps_absent_skips_annotation none (some [(1, ⟨"Web"⟩)]) "a" "b"
    ⟨[⟨[⟨1, 2, none, none, none⟩]⟩]⟩ ⟨[⟨[⟨3, 4, none, none, none⟩]⟩]⟩
    ⟨[⟨[⟨1, none, none, none⟩]⟩]⟩ ⟨[⟨[⟨2, none, none, none⟩]⟩]⟩ (Or.inl rfl)

/-- Claim C10: with both maps present, `get_site_dpi_by_app` annotates only
the records inside the first element of the `data` list; subsequent data
elements are returned unchanged, and a response with an empty `data` list is
returned without annotation and without error. -/
theorem c10_site_dpi_annotates_only_first_entry :
    (∀ (cm am : IdNameMap) (h1 h2 : String) (entry0 : SiteDpiEntry)
        (rest : List SiteDpiEntry),
      get_site_dpi_by_app_annotate (some cm) (some am) h1 h2 ⟨entry0 :: rest⟩ =
        ⟨{ entry0 with
            by_app := entry0.by_app.map (annotate_stat cm am h1 h2) } :: rest⟩) ∧
    (∀ (cm am : Option IdNameMap) (h1 h2 : String),
      get_site_dpi_by_app_annotate cm am h1 h2 ⟨[]⟩ = ⟨[]⟩) := by
  constructor
  · intro cm am h1 h2 entry0 rest
    rfl
  · intro cm am h1 h2
    rfl

/-- Counterexample to claim C4: with both maps present and a non-empty
record list, the category-level DPI endpoints return the parsed response
unchanged; no `x_cat` or `x_cat_app_id` field is attached, even though the
annotation step would resolve a name for the same category id (third
conjunct), so the annotation step is not applied by the category-level
endpoints. -/
theorem c4_counterexample_category_endpoints_not_annotated :
    get_site_dpi_by_category_result ⟨[⟨[⟨1, none, none, none⟩]⟩]⟩ =
        ⟨[⟨[⟨1, none, none, none⟩]⟩]⟩ ∧
    get_dpi_by_category_result ⟨[⟨[⟨1, none, none, none⟩]⟩]⟩ =
        ⟨[⟨[⟨1, none, none, none⟩]⟩]⟩ ∧
    (annotate_stat [(1, ⟨"Web"⟩)] [(65541, ⟨"HTTPS"⟩)] "hash1" "hash2"
        ⟨1, 5, none, none, none⟩).x_cat = some "Web" :=
  ⟨rfl, rfl, by decide⟩

/-- Claim C4 as amended: the DPI annotation step is applied only by the
app-level endpoints, in both the site-aggregate and per-device variants;
the category-level endpoints return the parsed response unchanged. -/
theorem c4_amended_annotation_only_on_app_endpoints :
    (∀ r : DpiByCatResponse, get_site_dpi_by_category_result r = r) ∧
    (∀ r : DpiByCatResponse, get_dpi_by_category_result r = r) ∧
    (∀ (cm am : IdNameMap) (h1 h2 : String) (entry0 : SiteDpiEntry)
        (rest : List SiteDpiEntry),
      get_site_dpi_by_app_annotate (some cm) (some am) h1 h2 ⟨entry0 :: rest⟩ =
        ⟨{ entry0 with
            by_app := entry0.by_app.map (annotate_stat cm am h1 h2) } :: rest⟩) ∧
    (∀ (cm am : IdNameMap) (h1 h2 : String) (r : StaDpiByAppResponse),
      get_dpi_by_app_annotate (some cm) (some am) h1 h2 r =
        ⟨r.data.map (fun device =>
          { device with
            by_app := device.by_app.map (annotate_stat cm am h1 h2) })⟩) :=
  ⟨fun _ => rfl, fun _ => rfl, fun _ _ _ _ _ _ => rfl, fun _ _ _ _ _ => rfl⟩

/-- Helper: when all three pre-flight checks pass, `get_stats_for_site`
never produces a `ValueError`. -/
theorem get_stats_for_site_valid_no_valueError (env : StatsEnv)
    (base site interval element_type : String) (attrs : List String)
    (s e : Option Int) (m : Option (List String))
    (hi : interval ∈ supported_intervals)
    (he : element_type ∈ supported_element_types)
    (ha : ∀ a ∈ attrs, a ∈ all_stat_attributes) :
    (get_stats_for_site env base site interval element_type attrs s e m).1 ≠
      Except.error PyError.valueError := by
  unfold get_stats_for_site
  rw [if_neg (not_not_intro hi), if_neg (not_not_intro he), if_neg (not_not_intro ha)]
  dsimp only
  split_ifs <;> simp

/-- Helper: when any pre-flight check fails, `get_stats_for_site` returns a
`ValueError` with an empty request trace. -/
theorem get_stats_for_site_invalid_valueError (env : StatsEnv)
    (base site interval element_type : String) (attrs : List String)
    (s e : Option Int) (m : Option (List String))
    (h : interval ∉ supported_intervals ∨ element_type ∉ supported_element_types ∨
      ¬ ∀ a ∈ attrs, a ∈ all_stat_attributes) :
    get_stats_for_site env base site interval element_type attrs s e m =
      (Except.error PyError.valueError, []) := by
  unfold get_stats_for_site
  by_cases hi : interval ∈ supported_intervals
  · rw [if_neg (not_not_intro hi)]
    by_cases he : element_type ∈ supported_element_types
    · rw [if_neg (not_not_intro he)]
      have ha : ¬ ∀ a ∈ attrs, a ∈ all_stat_attributes := by tauto
      rw [if_pos ha]
    · rw [if_pos he]
  · rw [if_pos hi]

/-- Claim C6: for `get_stats_for_site`, if the interval, the element type
and every requested attribute lie in their fixed enumerated sets, the
pre-flight validation passes (the call never fails with `ValueError`); if
any of them lies outside its set, the call fails with a client-side
`ValueError` — not a network error — before any HTTP request is issued
(the request trace is empty). -/
theorem c6_stats_preflight_validation (env : StatsEnv)
    (base site interval element_type : String) (attrs : List String)
    (s e : Option Int) (m : Option (List String)) :
    ((interval ∈ supported_intervals ∧ element_type ∈ supported_element_types ∧
        ∀ a ∈ attrs, a ∈ all_stat_attributes) →
      (get_stats_for_site env base site interval element_type attrs s e m).1 ≠
        Except.error PyError.valueError) ∧
    ((interval ∉ supported_intervals ∨ element_type ∉ supported_element_types ∨
        ¬ ∀ a ∈ attrs, a ∈ all_stat_attributes) →
      (get_stats_for_site env base site interval element_type attrs s e m).1 =
          Except.error PyError.valueError ∧
        (get_stats_for_site env base site interval element_type attrs s e m).2 = []) := by
  constructor
  · rintro ⟨hi, he, ha⟩
    exact get_stats_for_site_valid_no_valueError env base site interval element_type
      attrs s e m hi he ha
  · intro h
    rw [get_stats_for_site_invalid_valueError env base site interval element_type
      attrs s e m h]
    exact ⟨rfl, rfl⟩

/-- Fixed HTTP environment for the C6 witness: every POST returns status
200 and schema validation succeeds. -/
def stats_env_ok : StatsEnv :=
  { post := fun _ _ => ⟨200, "report"⟩
    validate := fun _ _ => true }

/-- Witness for C6: the invalid interval "weekly" fails with `ValueError`
and an empty request trace, while a fully valid call does not produce a
`ValueError`. -/
theorem c6_stats_preflight_validation_witness :
    ((get_stats_for_site stats_env_ok "u" "default" "weekly" "site" [] none none none).1 =
        Except.error PyError.valueError ∧
      (get_stats_for_site stats_env_ok "u" "default" "weekly" "site" [] none none none).2 =
        []) ∧
    (get_stats_for_site stats_env_ok "u" "default" "daily" "site" ["bytes"]
        none none none).1 ≠ Except.error PyError.valueError :=
  ⟨(c6_stats_preflight_validation stats_env_ok "u" "default" "weekly" "site" []
      none none none).2 (Or.inl (by decide)),
   (c6_stats_preflight_validation stats_env_ok "u" "default" "daily" "site" ["bytes"]
      none none none).1 ⟨by decide, by decide, by decide⟩⟩

/-- Environment exhibiting the C3 failing input: login page served with one
build string, the candidate script found with status 200 but with body
`"x"`, which the extraction pattern does not match.  `jsbeautifier` is the
identity on this body and `yaml.load` is never reached. -/
def c3_env : ResolverEnv :=
  { login_page_response := ⟨200, "angular/b1/js/"⟩
    dpi_js_response := fun _ => ⟨200, "x"⟩
    beautify := fun s => s
    yaml_load := fun _ => none }

/-- Claim C3, evaluated at the failing input: when the fetched script does
not match the extraction pattern, `re.match` returns `None` and the
unconditional `.groups()` call raises `AttributeError`, not
`UnifiAPIClientException` (the `len(mg) != 2` guard, whose own error message
shows `UnifiAPIClientException` was intended, is unreachable).  The
constructor's `except UnifiAPIClientException` therefore does not catch it:
best-effort construction propagates the error instead of completing with
the maps absent. -/
theorem c3_regex_failure_raises_attribute_error :
    get_category_and_application_map c3_env none =
        Except.error PyError.attributeError ∧
    init_category_and_app_maps c3_env (fun _ => "h") true =
        Except.error PyError.attributeError ∧
    PyError.attributeError ≠ PyError.unifiAPIClientException :=
  ⟨rfl, rfl, by decide⟩

/-- Supporting characterization of the resolver's error kinds: the three
discovery failure modes (login-page fetch failure, no build-id match, no
candidate script with status 200) raise `UnifiAPIClientException`; a
non-matching extraction pattern instead raises `AttributeError`; best-effort
construction swallows exactly `UnifiAPIClientException`, completing with all
four map attributes `None`, and propagates every other error kind. -/
theorem resolver_error_kinds :
    (∀ env : ResolverEnv, env.login_page_response.status_code ≠ 200 →
      get_category_and_application_map env none =
        Except.error PyError.unifiAPIClientException) ∧
    (∀ env : ResolverEnv, env.login_page_response.status_code = 200 →
      findall_angular_build env.login_page_response.text.data = [] →
      get_category_and_application_map env none =
        Except.error PyError.unifiAPIClientException) ∧
    (∀ (env : ResolverEnv) (b : String) (tl : List String),
      find_dpi_js env (b :: tl) = none →
      get_category_and_application_map env (some (b :: tl)) =
        Except.error PyError.unifiAPIClientException) ∧
    (∀ (env : ResolverEnv) (b : String) (tl : List String) (js : String),
      find_dpi_js env (b :: tl) = some js →
      reMatchToks dpi_map_pattern js.data = none →
      get_category_and_application_map env (some (b :: tl)) =
        Except.error PyError.attributeError) ∧
    (∀ (env : ResolverEnv) (sha : IdNameMap → String),
      get_category_and_application_map env none =
        Except.error PyError.unifiAPIClientException →
      init_category_and_app_maps env sha true = Except.ok ⟨none, none, none, none⟩) ∧
    (∀ (env : ResolverEnv) (sha : IdNameMap → String) (e : PyError),
      e ≠ PyError.unifiAPIClientException →
      get_category_and_application_map env none = Except.error e →
      init_category_and_app_maps env sha true = Except.error e) := by
  refine ⟨?_, ?_, ?_, ?_, ?_, ?_⟩
  · intro env h
    simp only [get_category_and_application_map, discover_build_strings, if_pos h]
    rfl
  · intro env h1 h2
    simp only [get_category_and_application_map, discover_build_strings,
      if_neg (not_not_intro h1), h2]
    rfl
  · intro env b tl h
    simp [get_category_and_application_map, h]
    rfl
  · intro env b tl js h hm
    simp [get_category_and_application_map, h, hm]
    rfl
  · intro env sha h
    simp [init_category_and_app_maps, h]
  · intro env sha e he h
    unfold init_category_and_app_maps
    rw [if_pos rfl, h]
    cases e
    · exact absurd rfl he
    · rfl
    · rfl
    · rfl
    · rfl

/-- Witness for the supporting characterization, at an environment whose
login page request fails with status 500. -/
theorem resolver_error_kinds_witness :
    get_category_and_application_map
        ⟨⟨500, ""⟩, fun _ => ⟨404, ""⟩, fun s => s, fun _ => none⟩ none =
      Except.error PyError.unifiAPIClientException :=
  resolver_error_kinds.1 ⟨⟨500, ""⟩, fun _ => ⟨404, ""⟩, fun s => s, fun _ => none⟩
    (by decide)

/-- The synthetic normalized script body of claim C5, written exactly as
the claim gives it (braces escaped): `categories: ` followed by the
category-table literal mapping 0 to a record named "Uncategorized", a
comma, an ellipsis, `applications:` followed by the application-table
literal mapping 65536 to a record named "Skype", the closing
brace-comma-bracket sequence, a newline, four spaces and `2:`. -/
def c5_script_body : String :=
  "categories: \x7b0: \x7bname: \"Uncategorized\"\x7d\x7d, ... applications:\x7b65536: \x7bname:\"Skype\"\x7d\x7d\x7d, \x7b\x7d],\n    2:"

/-- Counterexample to claim C5: on the claim's synthetic body the
extraction pattern does not match at all — the body has neither the twelve
spaces the pattern requires before `applications:` nor the
newline-brace-comma tail after the application table — so it does not yield
two captured groups. -/
theorem c5_counterexample_pattern_does_not_match :
    reMatchToks dpi_map_pattern c5_script_body.data = none ∧
    ¬ ∃ g1 g2, reMatchToks dpi_map_pattern c5_script_body.data = some [g1, g2] := by
  have hnone : reMatchToks dpi_map_pattern c5_script_body.data = none := rfl
  refine ⟨hnone, ?_⟩
  rintro ⟨g1, g2, h⟩
  rw [hnone] at h
  cases h

/-- Environment serving the C5 synthetic body as the candidate script, with
`jsbeautifier` the identity (the body is already normalized). -/
def c5_env : ResolverEnv :=
  { login_page_response := ⟨200, "angular/b1/js/"⟩
    dpi_js_response := fun _ => ⟨200, c5_script_body⟩
    beautify := fun s => s
    yaml_load := fun _ => none }

/-- Claim C5 as amended: on the claim's synthetic body the extraction
pattern, applied in dot-matches-newlines mode, fails to match, so no groups
are captured, nothing is handed to the structured-data parser, and the
resolver fails with `AttributeError` from calling `.groups()` on the `None`
match. -/
theorem c5_amended_extraction_fails_on_body :
    reMatchToks dpi_map_pattern (c5_env.beautify c5_script_body).data = none ∧
    get_category_and_application_map c5_env none =
      Except.error PyError.attributeError :=
  ⟨rfl, rfl⟩

end UnifiSpec
